import Mathlib

/-!
Verification of the slidev API server's lifecycle-orchestration core
(packages/api-server/src): port allocation, project scaffolding,
presentation lifecycle (create / delete / extend / expired-sweep) and the
request-validation pipeline, shallowly embedded as executable Lean
definitions.  External effects (the OS port probe, subprocess spawn,
readiness polling, filesystem write failures) enter the model as explicit
oracle inputs; the bookkeeping logic itself is translated directly from
the TypeScript source.
-/

/-! ## JSON-ish values for frontmatter / config objects -/

/-- A JavaScript value occurring in `request.frontmatter` / `request.config`
objects, as far as the slides-file serializer distinguishes them: strings
take the `typeof value === 'string'` branch, everything else is passed to
`JSON.stringify`. -/
inductive JVal where
  | str (s : String)
  | num (n : Int)
  | boolean (b : Bool)
  deriving Repr, DecidableEq

/-- `JSON.stringify` on the modelled value forms. -/
def jsonStringify : JVal → String
  | .str s => "\"" ++ s ++ "\""
  | .num n => toString n
  | .boolean b => cond b "true" "false"

/-- Lookup in a JS object modelled as an insertion-ordered association list. -/
def objLookup (k : String) : List (String × JVal) → Option JVal
  | [] => none
  | p :: rest => if p.1 = k then some p.2 else objLookup k rest

/-- Semantics of the object-literal spread `\x7b...a, ...b\x7d`: keys of `a` keep
their position with `b`'s value overriding on collision; keys only in `b`
are appended in order. -/
def jsMerge (a b : List (String × JVal)) : List (String × JVal) :=
  a.map (fun p => match objLookup p.1 b with
    | some v => (p.1, v)
    | none => p)
  ++ b.filter (fun p => objLookup p.1 a = none)

/-- JS `x || 'default'` on an optional string field (empty string is falsy). -/
def jsOrStr (o : Option String) (d : String) : String :=
  match o with
  | some s => if s = "" then d else s
  | none => d

/-! ## Requests -/

/-- The body of `POST /presentations` (types.ts `GeneratePPTRequest`).
Absent optional objects (`config`, `frontmatter`) spread to nothing, so they
are modelled as possibly-empty association lists. -/
structure GeneratePPTRequest where
  content : String
  title : Option String
  theme : Option String
  config : List (String × JVal)
  ttl : Option Nat
  customCSS : Option String
  frontmatter : List (String × JVal)
  deriving Repr, DecidableEq

/-- The default frontmatter object built in `createSlidesFile` (identical in
project-generator.ts and docker-manager.ts). -/
def defaultFrontmatter (request : GeneratePPTRequest) : List (String × JVal) :=
  [("theme", JVal.str (jsOrStr request.theme "default")),
   ("title", JVal.str (jsOrStr request.title "Generated Presentation")),
   ("class", JVal.str "text-center"),
   ("transition", JVal.str "slide-left"),
   ("mdc", JVal.boolean true)]

/-- The merged frontmatter object
`\x7b...defaults, ...request.frontmatter, ...request.config\x7d`. -/
def mergedFrontmatter (request : GeneratePPTRequest) : List (String × JVal) :=
  jsMerge (jsMerge (defaultFrontmatter request) request.frontmatter) request.config

namespace ProjectGenerator

/-- One `key: value` line as written by project-generator.ts
`createSlidesFile`: string values are explicitly quoted, all other values go
through `JSON.stringify`. -/
def serializeEntry (p : String × JVal) : String :=
  match p.2 with
  | .str s => p.1 ++ ": \"" ++ s ++ "\""
  | v => p.1 ++ ": " ++ jsonStringify v

/-- The frontmatter block of the slides file written by project-generator.ts. -/
def frontmatterYaml (request : GeneratePPTRequest) : String :=
  String.intercalate "\n" ((mergedFrontmatter request).map serializeEntry)

/-- The full `slides.md` content written by project-generator.ts. -/
def slidesContent (request : GeneratePPTRequest) : String :=
  "---\n" ++ frontmatterYaml request ++ "\n---\n\n" ++ request.content ++ "\n"

end ProjectGenerator

namespace DockerManager

/-- One `key: value` line as written by docker-manager.ts `createSlidesFile`:
string values are interpolated raw (NOT quoted), other values go through
`JSON.stringify`. -/
def serializeEntry (p : String × JVal) : String :=
  match p.2 with
  | .str s => p.1 ++ ": " ++ s
  | v => p.1 ++ ": " ++ jsonStringify v

/-- The frontmatter block of the slides file written by docker-manager.ts. -/
def frontmatterYaml (request : GeneratePPTRequest) : String :=
  String.intercalate "\n" ((mergedFrontmatter request).map serializeEntry)

end DockerManager

/-! ## Port manager (port-manager.ts) -/

/-- `PortManager.allocatePort`.  The external `getPort` probe (library
`get-port-please`, called with the allocated set as `exclude`) is an oracle
input: either a throw or a candidate port.  The method re-checks the range
and the allocated set itself; every failure is rethrown as the single
"no available ports" error by the surrounding catch. -/
def allocatePort (startPort endPort : Nat) (probe : Except String Nat)
    (allocatedPorts : Finset Nat) : Except String (Nat × Finset Nat) :=
  match probe with
  | .error _ => .error "No available ports in the configured range"
  | .ok port =>
    if port < startPort ∨ endPort < port then
      .error "No available ports in the configured range"
    else if port ∈ allocatedPorts then
      .error "No available ports in the configured range"
    else
      .ok (port, insert port allocatedPorts)

/-- `PortManager.releasePort`: removes the port if allocated; otherwise a
no-op that only logs a warning.  The boolean records whether the port was
actually removed (`false` = the warning branch). -/
def releasePort (port : Nat) (allocatedPorts : Finset Nat) : Finset Nat × Bool :=
  if port ∈ allocatedPorts then (allocatedPorts.erase port, true)
  else (allocatedPorts, false)

/-- One step of a client interaction with the port manager: an `allocate`
call (with its probe oracle) or a `release` call. -/
inductive PortOp where
  | alloc (probe : Except String Nat)
  | release (port : Nat)

/-- Run a sequence of port-manager calls, threading the allocated set. -/
def runPortOps (startPort endPort : Nat) : List PortOp → Finset Nat → Finset Nat
  | [], allocated => allocated
  | .alloc probe :: rest, allocated =>
    match allocatePort startPort endPort probe allocated with
    | .ok (_, allocated') => runPortOps startPort endPort rest allocated'
    | .error _ => runPortOps startPort endPort rest allocated
  | .release port :: rest, allocated =>
    runPortOps startPort endPort rest (releasePort port allocated).1

/-! ## Server configuration (config.ts) -/

/-- The fields of `ServerConfig` the lifecycle core reads. -/
structure ServerConfig where
  tempDir : String
  maxConcurrentPresentations : Nat
  defaultTTL : Nat
  portStart : Nat
  portEnd : Nat
  deriving Repr, DecidableEq

/-- `createDefaultConfig()` with no environment overrides. -/
def createDefaultConfig : ServerConfig :=
  { tempDir := "/tmp/slidev-api"
    maxConcurrentPresentations := 10
    defaultTTL := 3600000
    portStart := 3002
    portEnd := 3100 }

/-! ## Lifecycle state (presentation-manager.ts) -/

/-- `PresentationInstance` (types.ts); `server` is the child-process handle,
modelled by its pid.  Timestamps are milliseconds. -/
inductive InstanceStatus where
  | generating
  | ready
  | error
  | expired
  deriving Repr, DecidableEq

/-- The record stored in the `instances` map. -/
structure PresentationInstance where
  id : String
  projectPath : String
  server : Nat
  port : Nat
  createdAt : Nat
  expiresAt : Nat
  status : InstanceStatus
  request : GeneratePPTRequest
  deriving Repr, DecidableEq

/-- The shared mutable state of the service: the manager's `instances` Map
(insertion-ordered association list), the port manager's allocated set, the
set of existing per-instance working directories, and the set of live child
processes. -/
structure ManagerState where
  instances : List (String × PresentationInstance)
  allocatedPorts : Finset Nat
  dirs : Finset String
  procs : Finset Nat
  deriving DecidableEq

/-- The empty state at server startup. -/
def initialState : ManagerState :=
  { instances := [], allocatedPorts := ∅, dirs := ∅, procs := ∅ }

/-- JS `Map.prototype.get`. -/
def mapLookup (k : String) : List (String × PresentationInstance) → Option PresentationInstance
  | [] => none
  | p :: rest => if p.1 = k then some p.2 else mapLookup k rest

/-- JS `Map.prototype.set`: replace in place if the key exists, else append. -/
def mapSet (k : String) (v : PresentationInstance)
    (m : List (String × PresentationInstance)) : List (String × PresentationInstance) :=
  if (mapLookup k m).isSome then
    m.map (fun p => if p.1 = k then (k, v) else p)
  else
    m ++ [(k, v)]

/-- JS `Map.prototype.delete` (keys are unique in a Map, so a filter). -/
def mapDelete (k : String) (m : List (String × PresentationInstance)) :
    List (String × PresentationInstance) :=
  m.filter (fun p => p.1 ≠ k)

/-! ## Oracles for the effectful steps of `createPresentation` -/

/-- The outcomes of the external effects during one `createPresentation`
call: the generated nanoid, whether some scaffold write throws, whether the
scaffold's own rollback `fs.remove` succeeds, the `getPort` probe, the
subprocess spawn outcome (pid or startup error), the readiness wait outcome,
and whether the failure-path `cleanupProject` removal succeeds. -/
structure CreateEnv where
  freshId : String
  scaffoldErr : Option String
  scaffoldCleanupOk : Bool
  probe : Except String Nat
  spawnResult : Except String Nat
  readyErr : Option String
  rollbackRmOk : Bool

/-- The working directory path `join(config.tempDir, id)`. -/
def projectPathOf (cfg : ServerConfig) (env : CreateEnv) : String :=
  cfg.tempDir ++ "/" ++ env.freshId

/-- `ProjectGenerator.createProjectWithoutDeps`: creates the project
directory and writes the scaffold files into it; if any write throws, the
directory is removed again (that removal's own failure is swallowed) and the
original error is rethrown. -/
def createProjectWithoutDeps (cfg : ServerConfig) (env : CreateEnv)
    (dirs : Finset String) : Except String (String × String) × Finset String :=
  let id := env.freshId
  let projectPath := projectPathOf cfg env
  let dirs' := insert projectPath dirs
  match env.scaffoldErr with
  | none => (.ok (id, projectPath), dirs')
  | some e =>
    if env.scaffoldCleanupOk then (.error e, dirs'.erase projectPath)
    else (.error e, dirs')

/-- `ProjectGenerator.cleanupProject`: `fs.remove` the directory, rethrowing
a removal failure. -/
def cleanupProject (rmOk : Bool) (projectPath : String) (dirs : Finset String) :
    Except String Unit × Finset String :=
  if rmOk then (.ok (), dirs.erase projectPath)
  else (.error "Failed to cleanup project", dirs)

/-- JS `request.ttl || config.defaultTTL` (0 and `undefined` are falsy). -/
def resolvedTTL (cfg : ServerConfig) (request : GeneratePPTRequest) : Nat :=
  match request.ttl with
  | some t => if t = 0 then cfg.defaultTTL else t
  | none => cfg.defaultTTL

/-- The response body of a successful `createPresentation`. -/
structure GeneratePPTResponse where
  id : String
  url : String
  status : InstanceStatus
  createdAt : Nat
  expiresAt : Nat
  deriving Repr, DecidableEq

/-- `PresentationManager.createPresentation`.  Stages in source order:
capacity check, scaffold (`createProjectWithoutDeps`), port allocation,
TTL computation, spawn + readiness wait inside an inner try whose catch
kills the process, releases the port and removes the directory, then
registration of the instance with status `'ready'`. -/
def createPresentation (cfg : ServerConfig) (env : CreateEnv)
    (request : GeneratePPTRequest) (now : Nat) (st : ManagerState) :
    Except String GeneratePPTResponse × ManagerState :=
  if cfg.maxConcurrentPresentations ≤ st.instances.length then
    (.error "Maximum number of concurrent presentations reached", st)
  else
    match createProjectWithoutDeps cfg env st.dirs with
    | (.error e, dirs') => (.error e, { st with dirs := dirs' })
    | (.ok (id, projectPath), dirs') =>
      let st₁ : ManagerState := { st with dirs := dirs' }
      match allocatePort cfg.portStart cfg.portEnd env.probe st₁.allocatedPorts with
      | .error e => (.error e, st₁)
      | .ok (port, ports') =>
        let st₂ : ManagerState := { st₁ with allocatedPorts := ports' }
        let expiresAt := now + resolvedTTL cfg request
        match env.spawnResult with
        | .error e =>
          -- inner catch with `slidevProcess` still null: release port, remove dir
          let ports'' := (releasePort port st₂.allocatedPorts).1
          match cleanupProject env.rollbackRmOk projectPath st₂.dirs with
          | (.ok _, dirs'') =>
            (.error e, { st₂ with allocatedPorts := ports'', dirs := dirs'' })
          | (.error ce, dirs'') =>
            (.error ce, { st₂ with allocatedPorts := ports'', dirs := dirs'' })
        | .ok pid =>
          let st₃ : ManagerState := { st₂ with procs := insert pid st₂.procs }
          match env.readyErr with
          | some e =>
            -- inner catch: kill the spawned process, release port, remove dir
            let procs' := st₃.procs.erase pid
            let ports'' := (releasePort port st₃.allocatedPorts).1
            match cleanupProject env.rollbackRmOk projectPath st₃.dirs with
            | (.ok _, dirs'') =>
              (.error e,
               { st₃ with allocatedPorts := ports'', dirs := dirs'', procs := procs' })
            | (.error ce, dirs'') =>
              (.error ce,
               { st₃ with allocatedPorts := ports'', dirs := dirs'', procs := procs' })
          | none =>
            let inst : PresentationInstance :=
              { id := id, projectPath := projectPath, server := pid, port := port
                createdAt := now, expiresAt := expiresAt
                status := .ready, request := request }
            let response : GeneratePPTResponse :=
              { id := id, url := "http://localhost:" ++ toString port
                status := .ready, createdAt := now, expiresAt := expiresAt }
            (.ok response, { st₃ with instances := mapSet id inst st₃.instances })

/-- `PresentationManager.getPresentation`. -/
def getPresentation (id : String) (st : ManagerState) : Option PresentationInstance :=
  mapLookup id st.instances

/-- `PresentationManager.getAllPresentations`. -/
def getAllPresentations (st : ManagerState) : List PresentationInstance :=
  st.instances.map Prod.snd

/-- `PresentationManager.deletePresentation`: returns `false` for an unknown
id; otherwise kills the process, releases the port, removes the directory
and deletes the map entry.  `rmOk` is the oracle for the directory removal:
when it throws, the error propagates from inside the try block, after the
kill and port release but before the map delete. -/
def deletePresentation (rmOk : Bool) (id : String) (st : ManagerState) :
    Except String Bool × ManagerState :=
  match mapLookup id st.instances with
  | none => (.ok false, st)
  | some inst =>
    let procs' := st.procs.erase inst.server
    let ports' := (releasePort inst.port st.allocatedPorts).1
    match cleanupProject rmOk inst.projectPath st.dirs with
    | (.ok _, dirs') =>
      (.ok true,
       { instances := mapDelete id st.instances, allocatedPorts := ports'
         dirs := dirs', procs := procs' })
    | (.error ce, dirs') =>
      (.error ce,
       { instances := st.instances, allocatedPorts := ports'
         dirs := dirs', procs := procs' })

/-- The body of `cleanupExpired`'s deletion loop: delete one expired id,
incrementing the cleaned counter unless the deletion threw. -/
def sweepStep (rmOk : String → Bool) (acc : Nat × ManagerState) (id : String) :
    Nat × ManagerState :=
  match deletePresentation (rmOk id) id acc.2 with
  | (.ok _, st') => (acc.1 + 1, st')
  | (.error _, st') => (acc.1, st')

/-- `PresentationManager.cleanupExpired`: collect the ids whose
`expiresAt <= now`, then delete each, counting the deletions that did not
throw; a throw is logged and the sweep continues. -/
def cleanupExpired (rmOk : String → Bool) (now : Nat) (st : ManagerState) :
    Nat × ManagerState :=
  let expiredIds := (st.instances.filter (fun p => p.2.expiresAt ≤ now)).map Prod.fst
  expiredIds.foldl (sweepStep rmOk) (0, st)

/-! ## Request validation (validation.ts) and the POST /presentations route -/

/-- Characters accepted by the Joi theme pattern `[a-zA-Z0-9-_]`. -/
def isThemeChar (c : Char) : Bool :=
  c.isAlphanum || c = '-' || c = '_'

/-- Whether a request body passes `generatePPTSchema` (Joi): `content`
required with length in 1..1000000, `title` at most 200 chars, `theme`
nonempty, at most 50 chars, matching the pattern, `ttl` in
60000..86400000, `customCSS` at most 100000 chars; `config` and
`frontmatter` are unconstrained objects. -/
def schemaValidate (request : GeneratePPTRequest) : Bool :=
  (1 ≤ request.content.length && request.content.length ≤ 1000000) &&
  (match request.title with
    | none => true
    | some t => 1 ≤ t.length && t.length ≤ 200) &&
  (match request.theme with
    | none => true
    | some t => 1 ≤ t.length && t.length ≤ 50 && t.data.all isThemeChar) &&
  (match request.ttl with
    | none => true
    | some t => 60000 ≤ t && t ≤ 86400000) &&
  (match request.customCSS with
    | none => true
    | some c => 1 ≤ c.length && c.length ≤ 100000)

/-- Whitespace for the purposes of JS `String.prototype.trim`. -/
def isJsWhitespace (c : Char) : Bool :=
  c = ' ' || c = '\t' || c = '\n' || c = '\r' || c = Char.ofNat 11 || c = Char.ofNat 12

/-- JS `String.prototype.trim`: strip whitespace from both ends. -/
def jsTrim (s : String) : String :=
  ⟨((s.data.dropWhile isJsWhitespace).reverse.dropWhile isJsWhitespace).reverse⟩

/-- An HTTP error/success outcome as far as the claims observe it: the
status code and the machine-readable `code` field of the JSON body. -/
structure ApiResponse where
  status : Nat
  code : String
  deriving Repr, DecidableEq

/-- The route-level oracle inputs of `POST /presentations` that precede the
manager call: the health monitor's verdict and its available-port count.
`sanitize` stands for `sanitizeMarkdown`'s regex substitutions (script-tag,
`javascript:` URL and event-handler removal) — pure text rewriting with no
effect on any lifecycle state, left uninterpreted here. -/
structure RouteEnv where
  healthy : Bool
  availablePorts : Nat
  sanitize : String → String

/-- `POST /presentations`: the `validateBody(generatePPTSchema)` middleware,
then `validatePresentationRequest` (trimmed content at least 10 chars, then
markdown sanitization), then the handler (health gates, then
`createPresentation`, 201 on success).  A middleware rejection responds
immediately: the handler, and with it every resource acquisition, is never
reached and the state is returned untouched. -/
def postPresentations (cfg : ServerConfig) (renv : RouteEnv) (env : CreateEnv)
    (request : GeneratePPTRequest) (now : Nat) (st : ManagerState) :
    ApiResponse × ManagerState :=
  if schemaValidate request = false then
    (⟨400, "VALIDATION_ERROR"⟩, st)
  else if (jsTrim request.content).length < 10 then
    (⟨400, "CONTENT_TOO_SHORT"⟩, st)
  else
    let sanitized := { request with content := renv.sanitize (jsTrim request.content) }
    if renv.healthy = false then
      (⟨503, "SERVICE_UNAVAILABLE"⟩, st)
    else if renv.availablePorts = 0 then
      (⟨507, "INSUFFICIENT_RESOURCES"⟩, st)
    else
      match createPresentation cfg env sanitized now st with
      | (.ok _, st') => (⟨201, "CREATED"⟩, st')
      | (.error _, st') => (⟨500, "INTERNAL_ERROR"⟩, st')

/-- The observable outcome of `POST /presentations/:id/extend`. -/
inductive ExtendResult where
  | validationError
  | notFound
  | extended (expiresAt : Nat)
  deriving Repr, DecidableEq

/-- `POST /presentations/:id/extend`: the body schema
`Joi.number().min(60000).max(86400000).required()` guards the handler; the
handler 404s on an unknown id and otherwise sets
`presentation.expiresAt = new Date(Date.now() + ttl)` in place, leaving
`createdAt` and everything else untouched. -/
def extendPresentation (id : String) (ttl : Nat) (now : Nat) (st : ManagerState) :
    ExtendResult × ManagerState :=
  if ttl < 60000 ∨ 86400000 < ttl then
    (.validationError, st)
  else
    match mapLookup id st.instances with
    | none => (.notFound, st)
    | some _ =>
      let instances' := st.instances.map
        (fun p => if p.1 = id then (p.1, { p.2 with expiresAt := now + ttl }) else p)
      (.extended (now + ttl), { st with instances := instances' })

/-! ## The reachable-state step relation -/

/-- One public operation on the shared lifecycle state, as exposed through
the HTTP surface: a create attempt (any oracle outcomes), a delete, a TTL
extension, or an expired-instance sweep. -/
inductive ManagerStep (cfg : ServerConfig) : ManagerState → ManagerState → Prop where
  | create (env : CreateEnv) (request : GeneratePPTRequest) (now : Nat) (st : ManagerState) :
      ManagerStep cfg st (createPresentation cfg env request now st).2
  | delete (rmOk : Bool) (id : String) (st : ManagerState) :
      ManagerStep cfg st (deletePresentation rmOk id st).2
  | extend (id : String) (ttl now : Nat) (st : ManagerState) :
      ManagerStep cfg st (extendPresentation id ttl now st).2
  | sweep (rmOk : String → Bool) (now : Nat) (st : ManagerState) :
      ManagerStep cfg st (cleanupExpired rmOk now st).2

/-- Invariant: every registered instance has status `'ready'`. -/
def allReady (st : ManagerState) : Prop :=
  ∀ p ∈ st.instances, p.2.status = InstanceStatus.ready

/-- Well-formedness of the shared state: map keys, instance ports and
instance directories are pairwise distinct, and each instance's port and
directory are actually held. -/
def stateWF (st : ManagerState) : Prop :=
  (st.instances.map Prod.fst).Nodup ∧
  (st.instances.map (fun p => p.2.port)).Nodup ∧
  (st.instances.map (fun p => p.2.projectPath)).Nodup ∧
  (∀ p ∈ st.instances, p.2.port ∈ st.allocatedPorts) ∧
  (∀ p ∈ st.instances, p.2.projectPath ∈ st.dirs)

/-! ## Helper lemmas -/

theorem allocatePort_ok_elim {s e : Nat} {probe : Except String Nat} {A : Finset Nat}
    {p : Nat} {A' : Finset Nat}
    (h : allocatePort s e probe A = .ok (p, A')) :
    s ≤ p ∧ p ≤ e ∧ p ∉ A ∧ A' = insert p A := by
  cases probe with
  | error m => simp [allocatePort] at h
  | ok q =>
    by_cases h1 : q < s ∨ e < q
    · simp [allocatePort, h1] at h
    · by_cases h2 : q ∈ A
      · simp [allocatePort, h1, h2] at h
      · simp [allocatePort, h1, h2] at h
        push_neg at h1
        obtain ⟨hq, hA⟩ := h
        subst hq
        exact ⟨h1.1, h1.2, h2, hA.symm⟩

theorem releasePort_self_not_mem (p : Nat) (A : Finset Nat) :
    p ∉ (releasePort p A).1 := by
  unfold releasePort
  split
  · exact Finset.not_mem_erase p A
  · assumption

theorem releasePort_mem_of_ne {q p : Nat} {A : Finset Nat} (hne : q ≠ p)
    (hq : q ∈ A) : q ∈ (releasePort p A).1 := by
  unfold releasePort
  split
  · exact Finset.mem_erase.mpr ⟨hne, hq⟩
  · exact hq

theorem runPortOps_persist (s e p : Nat) :
    ∀ (ops : List PortOp) (A : Finset Nat), p ∈ A → PortOp.release p ∉ ops →
      p ∈ runPortOps s e ops A := by
  intro ops
  induction ops with
  | nil =>
    intro A hA _
    simpa [runPortOps] using hA
  | cons op rest ih =>
    intro A hA hrel
    cases op with
    | alloc probe =>
      have hrel' : PortOp.release p ∉ rest :=
        fun hc => hrel (List.mem_cons_of_mem _ hc)
      cases hres : allocatePort s e probe A with
      | ok pa =>
        obtain ⟨q, A'⟩ := pa
        have hmem : p ∈ A' := by
          obtain ⟨_, _, _, hins⟩ := allocatePort_ok_elim hres
          subst hins
          exact Finset.mem_insert_of_mem hA
        simpa [runPortOps, hres] using ih A' hmem hrel'
      | error m =>
        simpa [runPortOps, hres] using ih A hA hrel'
    | release q =>
      have hqp : q ≠ p := by
        rintro rfl
        exact hrel (List.mem_cons_self _ _)
      have hrel' : PortOp.release p ∉ rest :=
        fun hc => hrel (List.mem_cons_of_mem _ hc)
      have hmem : p ∈ (releasePort q A).1 :=
        releasePort_mem_of_ne (fun hc => hqp hc.symm) hA
      simpa [runPortOps] using ih _ hmem hrel'

/-! ## Claim C2: port allocation exclusivity, range and exhaustion -/

/-- C2.  (i) Every successful `allocatePort` returns a port inside
`[startPort, endPort]` that was not currently held, and afterwards holds
exactly the old set plus that port; (ii) when every port of the range is
already allocated, `allocatePort` fails for every possible probe outcome;
(iii) across any sequence of further allocate/release calls that never
releases `p`, a later successful allocation cannot return `p` again — two
successful calls can only return the same port if it was released in
between. -/
theorem allocatePort_claims (s e : Nat) :
    (∀ (probe : Except String Nat) (A : Finset Nat) (p : Nat) (A' : Finset Nat),
       allocatePort s e probe A = .ok (p, A') →
       s ≤ p ∧ p ≤ e ∧ p ∉ A ∧ A' = insert p A) ∧
    (∀ (probe : Except String Nat) (A : Finset Nat),
       Finset.Icc s e ⊆ A → (allocatePort s e probe A).isOk = false) ∧
    (∀ (pr₁ pr₂ : Except String Nat) (ops : List PortOp) (A₀ : Finset Nat)
       (p : Nat) (A₁ : Finset Nat) (q : Nat) (A₂ : Finset Nat),
       allocatePort s e pr₁ A₀ = .ok (p, A₁) →
       PortOp.release p ∉ ops →
       allocatePort s e pr₂ (runPortOps s e ops A₁) = .ok (q, A₂) →
       q ≠ p) := by
  refine ⟨fun probe A p A' h => allocatePort_ok_elim h, ?_, ?_⟩
  · intro probe A hsub
    cases probe with
    | error m => simp [allocatePort, Except.isOk, Except.toBool]
    | ok q =>
      by_cases h1 : q < s ∨ e < q
      · simp [allocatePort, h1, Except.isOk, Except.toBool]
      · push_neg at h1
        have hq : q ∈ A := hsub (Finset.mem_Icc.mpr h1)
        simp [allocatePort, h1.1.not_lt, h1.2.not_lt, hq, Except.isOk, Except.toBool]
  · intro pr₁ pr₂ ops A₀ p A₁ q A₂ h₁ hrel h₂
    obtain ⟨_, _, _, hins⟩ := allocatePort_ok_elim h₁
    have hpA₁ : p ∈ A₁ := hins ▸ Finset.mem_insert_self p A₀
    have hper : p ∈ runPortOps s e ops A₁ := runPortOps_persist s e p ops A₁ hpA₁ hrel
    obtain ⟨_, _, hq, _⟩ := allocatePort_ok_elim h₂
    rintro rfl
    exact hq hper

/-- Witness for C2 at a concrete run: range 3002..3100, empty set, probe
returning 3002. -/
theorem allocatePort_claims_witness :
    3002 ≤ 3002 ∧ 3002 ≤ 3100 ∧ 3002 ∉ (∅ : Finset Nat) ∧
      insert 3002 (∅ : Finset Nat) = insert 3002 ∅ :=
  (allocatePort_claims 3002 3100).1 (.ok 3002) ∅ 3002 (insert 3002 ∅) (by rfl)

/-! ## Claim C6: releasePort idempotence and re-allocation -/

/-- C6.  Releasing an allocated port removes exactly that port (every other
port's membership is unchanged); releasing an unallocated port leaves the
set unchanged and only takes the warning branch (no exception is modelled
because none is thrown); release is idempotent; and after `release p` a
subsequent `allocatePort` whose probe proposes an in-range `p` succeeds and
returns `p` again. -/
theorem releasePort_claims (p : Nat) (A : Finset Nat) (s e : Nat) :
    (p ∈ A → releasePort p A = (A.erase p, true) ∧
       p ∉ (releasePort p A).1 ∧
       (∀ q : Nat, q ≠ p → (q ∈ (releasePort p A).1 ↔ q ∈ A))) ∧
    (p ∉ A → releasePort p A = (A, false)) ∧
    ((releasePort p (releasePort p A).1).1 = (releasePort p A).1) ∧
    (s ≤ p → p ≤ e →
       allocatePort s e (.ok p) (releasePort p A).1 =
         .ok (p, insert p (releasePort p A).1)) := by
  refine ⟨?_, ?_, ?_, ?_⟩
  · intro hp
    refine ⟨by simp [releasePort, hp], releasePort_self_not_mem p A, ?_⟩
    intro q hq
    simp [releasePort, hp, Finset.mem_erase, hq]
  · intro hp
    simp [releasePort, hp]
  · by_cases hp : p ∈ A
    · simp [releasePort, hp, Finset.not_mem_erase]
    · simp [releasePort, hp]
  · intro hs he
    have h := releasePort_self_not_mem p A
    simp [allocatePort, Nat.not_lt.mpr hs, Nat.not_lt.mpr he, h]

/-- Witness for C6 at `p = 3005`, `A = {3005, 3007}`, range 3002..3100. -/
theorem releasePort_claims_witness :
    releasePort 3005 {3005, 3007} = (({3005, 3007} : Finset Nat).erase 3005, true) ∧
      3005 ∉ (releasePort 3005 {3005, 3007}).1 ∧
      (∀ q : Nat, q ≠ 3005 →
        (q ∈ (releasePort 3005 {3005, 3007}).1 ↔ q ∈ ({3005, 3007} : Finset Nat))) :=
  (releasePort_claims 3005 {3005, 3007} 3002 3100).1 (by decide)

/-! ## Claim C8: concurrency ceiling is checked before any acquisition -/

/-- C8.  When the registry already holds at least
`maxConcurrentPresentations` instances, `createPresentation` fails with the
capacity error and returns the state bit-for-bit unchanged: no directory is
created, no port allocated, no process spawned, no instance registered. -/
theorem createPresentation_capacity (cfg : ServerConfig) (env : CreateEnv)
    (request : GeneratePPTRequest) (now : Nat) (st : ManagerState)
    (h : cfg.maxConcurrentPresentations ≤ st.instances.length) :
    createPresentation cfg env request now st =
      (.error "Maximum number of concurrent presentations reached", st) := by
  simp [createPresentation, h]

/-- Witness for C8: default config (ceiling 10) with ten registered
instances. -/
def wInst (i : Nat) : PresentationInstance :=
  { id := "slidev-w" ++ toString i, projectPath := "/tmp/slidev-api/slidev-w" ++ toString i
    server := 600 + i, port := 3010 + i, createdAt := 0, expiresAt := 3600000
    status := .ready
    request := { content := "# w", title := none, theme := none, config := []
                 ttl := none, customCSS := none, frontmatter := [] } }

def fullState : ManagerState :=
  { instances := (List.range 10).map (fun i => ("slidev-w" ++ toString i, wInst i))
    allocatedPorts := Finset.image (fun i => 3010 + i) (Finset.range 10)
    dirs := Finset.image (fun i => "/tmp/slidev-api/slidev-w" ++ toString i) (Finset.range 10)
    procs := Finset.image (fun i => 600 + i) (Finset.range 10) }

def wEnv : CreateEnv :=
  { freshId := "slidev-wwwwwwwwwwww", scaffoldErr := none, scaffoldCleanupOk := true
    probe := .ok 3050, spawnResult := .ok 990, readyErr := none, rollbackRmOk := true }

theorem createPresentation_capacity_witness :
    createPresentation createDefaultConfig wEnv (wInst 0).request 0 fullState =
      (.error "Maximum number of concurrent presentations reached", fullState) :=
  createPresentation_capacity createDefaultConfig wEnv (wInst 0).request 0 fullState
    (by simp [fullState, createDefaultConfig])

/-! ## Claim C10: deletePresentation is not atomic on cleanup failure -/

/-- C10.  For a registered id, when the project-directory removal throws,
`deletePresentation` propagates the error while the instance is still in
the map — yet its process has already been killed and its port already
released, so the registry holds an instance whose port is no longer in the
allocated set. -/
theorem deletePresentation_cleanup_failure (id : String) (st : ManagerState)
    (inst : PresentationInstance) (h : mapLookup id st.instances = some inst) :
    (∃ e, (deletePresentation false id st).1 = .error e) ∧
    (deletePresentation false id st).2.instances = st.instances ∧
    mapLookup id (deletePresentation false id st).2.instances = some inst ∧
    inst.port ∉ (deletePresentation false id st).2.allocatedPorts ∧
    inst.server ∉ (deletePresentation false id st).2.procs ∧
    (deletePresentation false id st).2.dirs = st.dirs := by
  have hport := releasePort_self_not_mem inst.port st.allocatedPorts
  have hproc := Finset.not_mem_erase inst.server st.procs
  refine ⟨⟨"Failed to cleanup project", ?_⟩, ?_, ?_, ?_, ?_, ?_⟩ <;>
    simp [deletePresentation, cleanupProject, h, hport, hproc]

/-- Witness for C10: a single registered instance whose directory removal
fails. -/
def w10State : ManagerState :=
  { instances := [("slidev-w0000000000000", wInst 0)]
    allocatedPorts := {3010}, dirs := {"/tmp/slidev-api/slidev-w0"}, procs := {600} }

theorem deletePresentation_cleanup_failure_witness :
    (∃ e, (deletePresentation false "slidev-w0000000000000" w10State).1 = .error e) ∧
    (deletePresentation false "slidev-w0000000000000" w10State).2.instances =
      w10State.instances ∧
    mapLookup "slidev-w0000000000000"
      (deletePresentation false "slidev-w0000000000000" w10State).2.instances =
      some (wInst 0) ∧
    (wInst 0).port ∉
      (deletePresentation false "slidev-w0000000000000" w10State).2.allocatedPorts ∧
    (wInst 0).server ∉
      (deletePresentation false "slidev-w0000000000000" w10State).2.procs ∧
    (deletePresentation false "slidev-w0000000000000" w10State).2.dirs = w10State.dirs :=
  deletePresentation_cleanup_failure "slidev-w0000000000000" w10State (wInst 0)
    (by simp [w10State, mapLookup])

/-! ## Claim C5: TTL extension -/

theorem mapLookup_update (id : String) (t : Nat) :
    ∀ l : List (String × PresentationInstance),
      mapLookup id
        (l.map (fun p => if p.1 = id then (p.1, { p.2 with expiresAt := t }) else p)) =
        (mapLookup id l).map (fun i => { i with expiresAt := t }) := by
  intro l
  induction l with
  | nil => rfl
  | cons p rest ih =>
    by_cases hp : p.1 = id
    · simp [mapLookup, hp]
    · simp [mapLookup, hp, ih]

/-- C5.  A ttl outside `[60000, 86400000]` is rejected by the body schema
with no state change at all; for a registered id and an in-range ttl the
handler sets `expiresAt` to `now + ttl` (strictly later than the previous
value whenever `now + ttl` is later), leaves `createdAt` and every other
instance untouched, and changes no port, directory or process. -/
theorem extendPresentation_claims (id : String) (ttl now : Nat) (st : ManagerState)
    (inst : PresentationInstance) :
    ((ttl < 60000 ∨ 86400000 < ttl) →
       extendPresentation id ttl now st = (.validationError, st)) ∧
    (60000 ≤ ttl → ttl ≤ 86400000 → mapLookup id st.instances = some inst →
      (extendPresentation id ttl now st).1 = .extended (now + ttl) ∧
      mapLookup id (extendPresentation id ttl now st).2.instances =
        some { inst with expiresAt := now + ttl } ∧
      ({ inst with expiresAt := now + ttl } : PresentationInstance).createdAt =
        inst.createdAt ∧
      (inst.expiresAt < now + ttl →
        inst.expiresAt <
          ({ inst with expiresAt := now + ttl } : PresentationInstance).expiresAt) ∧
      (extendPresentation id ttl now st).2.allocatedPorts = st.allocatedPorts ∧
      (extendPresentation id ttl now st).2.dirs = st.dirs ∧
      (extendPresentation id ttl now st).2.procs = st.procs ∧
      (∀ p ∈ st.instances, p.1 ≠ id → p ∈ (extendPresentation id ttl now st).2.instances)) := by
  constructor
  · intro h
    simp [extendPresentation, h]
  · intro h1 h2 hl
    have hcond : ¬(ttl < 60000 ∨ 86400000 < ttl) := by omega
    refine ⟨?_, ?_, rfl, fun h => h, ?_, ?_, ?_, ?_⟩
    · simp [extendPresentation, hcond, hl]
    · simp only [extendPresentation, hcond, if_false, hl]
      rw [mapLookup_update]
      simp [hl]
    · simp [extendPresentation, hcond, hl]
    · simp [extendPresentation, hcond, hl]
    · simp [extendPresentation, hcond, hl]
    · intro p hp hne
      simp only [extendPresentation, hcond, if_false, hl]
      exact List.mem_map.mpr ⟨p, hp, by simp [hne]⟩

/-- Witness for C5: extend the single instance of a concrete state by the
minimum ttl at time 100. -/
theorem extendPresentation_claims_witness :
    (extendPresentation "slidev-w0000000000000" 60000 100 w10State).1 =
      .extended (100 + 60000) ∧
    mapLookup "slidev-w0000000000000"
      (extendPresentation "slidev-w0000000000000" 60000 100 w10State).2.instances =
      some { wInst 0 with expiresAt := 100 + 60000 } ∧
    ({ wInst 0 with expiresAt := 100 + 60000 } : PresentationInstance).createdAt =
      (wInst 0).createdAt ∧
    ((wInst 0).expiresAt < 100 + 60000 →
      (wInst 0).expiresAt <
        ({ wInst 0 with expiresAt := 100 + 60000 } : PresentationInstance).expiresAt) ∧
    (extendPresentation "slidev-w0000000000000" 60000 100 w10State).2.allocatedPorts =
      w10State.allocatedPorts ∧
    (extendPresentation "slidev-w0000000000000" 60000 100 w10State).2.dirs =
      w10State.dirs ∧
    (extendPresentation "slidev-w0000000000000" 60000 100 w10State).2.procs =
      w10State.procs ∧
    (∀ p ∈ w10State.instances, p.1 ≠ "slidev-w0000000000000" →
      p ∈ (extendPresentation "slidev-w0000000000000" 60000 100 w10State).2.instances) :=
  (extendPresentation_claims "slidev-w0000000000000" 60000 100 w10State (wInst 0)).2
    (by decide) (by decide) (by simp [w10State, mapLookup])

/-! ## Claim C3: short content is rejected before any acquisition -/

theorem jsTrim_length_le (s : String) : (jsTrim s).length ≤ s.length := by
  have h1 : (s.data.dropWhile isJsWhitespace).length ≤ s.data.length :=
    (List.dropWhile_sublist _).length_le
  have h2 : ((s.data.dropWhile isJsWhitespace).reverse.dropWhile isJsWhitespace).length ≤
      (s.data.dropWhile isJsWhitespace).length := by
    simpa using
      (List.dropWhile_sublist (l := (s.data.dropWhile isJsWhitespace).reverse)
        isJsWhitespace).length_le
  show (jsTrim s).data.length ≤ s.data.length
  simp only [jsTrim]
  simpa using le_trans h2 h1

/-- C3.  A request whose `content` is 5 characters long (and otherwise
schema-conformant) is answered with HTTP 400 and code `CONTENT_TOO_SHORT`
by the validation middleware, and the shared state is returned untouched:
no port, no process, no directory, no instance. -/
theorem postPresentations_contentTooShort (cfg : ServerConfig) (renv : RouteEnv)
    (env : CreateEnv) (request : GeneratePPTRequest) (now : Nat) (st : ManagerState)
    (h5 : request.content.length = 5) (hs : schemaValidate request = true) :
    postPresentations cfg renv env request now st = (⟨400, "CONTENT_TOO_SHORT"⟩, st) := by
  have hlt : (jsTrim request.content).length < 10 :=
    lt_of_le_of_lt (le_of_le_of_eq (jsTrim_length_le request.content) h5) (by norm_num)
  simp [postPresentations, hs, hlt]

/-- Witness for C3: the concrete body `content = "# ppt"` (length 5). -/
def w3Request : GeneratePPTRequest :=
  { content := "# ppt", title := some "T", theme := some "default", config := []
    ttl := some 60000, customCSS := none, frontmatter := [] }

def w3RouteEnv : RouteEnv :=
  { healthy := true, availablePorts := 99, sanitize := fun s => s }

theorem postPresentations_contentTooShort_witness :
    postPresentations createDefaultConfig w3RouteEnv wEnv w3Request 0 initialState =
      (⟨400, "CONTENT_TOO_SHORT"⟩, initialState) :=
  postPresentations_contentTooShort createDefaultConfig w3RouteEnv wEnv w3Request 0
    initialState (by decide) (by decide)

/-! ## Claim C7: frontmatter merge and serialization -/

theorem objLookup_append (k : String) :
    ∀ xs ys : List (String × JVal), objLookup k (xs ++ ys) =
      match objLookup k xs with
      | some v => some v
      | none => objLookup k ys := by
  intro xs ys
  induction xs with
  | nil => simp [objLookup]
  | cons p rest ih =>
    by_cases hp : p.1 = k
    · simp [objLookup, hp]
    · simp [objLookup, hp, ih]

theorem objLookup_mergeMap (k : String) (b : List (String × JVal)) :
    ∀ a : List (String × JVal),
      objLookup k (a.map (fun p => match objLookup p.1 b with
          | some v => (p.1, v)
          | none => p)) =
        match objLookup k a with
        | some v₀ => some (match objLookup k b with
            | some v => v
            | none => v₀)
        | none => none := by
  intro a
  induction a with
  | nil => simp [objLookup]
  | cons p rest ih =>
    by_cases hp : p.1 = k
    · subst hp
      cases hb : objLookup p.1 b <;> simp [objLookup, hb]
    · cases hb : objLookup p.1 b <;> simp [objLookup, hb, hp, ih]

theorem objLookup_filterKeep (k : String) (a : List (String × JVal))
    (ha : objLookup k a = none) :
    ∀ b : List (String × JVal),
      objLookup k (b.filter (fun p => objLookup p.1 a = none)) = objLookup k b := by
  intro b
  induction b with
  | nil => rfl
  | cons p rest ih =>
    by_cases hp : p.1 = k
    · subst hp
      simp [List.filter, ha, objLookup, ih]
    · by_cases hpred : objLookup p.1 a = none
      · simp [List.filter, hpred, objLookup, hp, ih]
      · simp [List.filter, hpred, objLookup, hp, ih]

theorem objLookup_jsMerge (k : String) (a b : List (String × JVal)) :
    objLookup k (jsMerge a b) =
      match objLookup k b with
      | some v => some v
      | none => objLookup k a := by
  unfold jsMerge
  rw [objLookup_append, objLookup_mergeMap]
  cases ha : objLookup k a with
  | some v₀ => cases hb : objLookup k b <;> simp [hb]
  | none =>
    rw [objLookup_filterKeep k a ha b]
    cases hb : objLookup k b <;> simp [hb, ha]

/-- C7 (amended).  The frontmatter written to the slides file is the merge
of the defaults with `request.frontmatter` and then `request.config`, later
sources winning on key collision; in the project-generator writer every
string value is serialized quoted and every non-string value via
`JSON.stringify`, while in the docker-manager writer string values are
written raw (unquoted) and non-strings via `JSON.stringify`. -/
theorem frontmatter_merge_claims (request : GeneratePPTRequest) (k : String) :
    (objLookup k (mergedFrontmatter request) =
       match objLookup k request.config with
       | some v => some v
       | none =>
         match objLookup k request.frontmatter with
         | some v => some v
         | none => objLookup k (defaultFrontmatter request)) ∧
    (∀ s, ProjectGenerator.serializeEntry (k, JVal.str s) = k ++ ": \"" ++ s ++ "\"") ∧
    (∀ v, (∀ s, v ≠ JVal.str s) →
       ProjectGenerator.serializeEntry (k, v) = k ++ ": " ++ jsonStringify v) ∧
    (∀ s, DockerManager.serializeEntry (k, JVal.str s) = k ++ ": " ++ s) ∧
    (∀ v, (∀ s, v ≠ JVal.str s) →
       DockerManager.serializeEntry (k, v) = k ++ ": " ++ jsonStringify v) := by
  refine ⟨?_, fun s => rfl, ?_, fun s => rfl, ?_⟩
  · unfold mergedFrontmatter
    rw [objLookup_jsMerge, objLookup_jsMerge]
  · intro v hv
    cases v with
    | str s => exact absurd rfl (hv s)
    | num n => rfl
    | boolean b => rfl
  · intro v hv
    cases v with
    | str s => exact absurd rfl (hv s)
    | num n => rfl
    | boolean b => rfl

/-- Witness for C7: a key present in all three sources resolves to the
`config` value, and a non-string default serializes structurally. -/
def w7Request : GeneratePPTRequest :=
  { content := "# deck", title := none, theme := none
    config := [("title", JVal.str "Cfg")]
    ttl := none, customCSS := none
    frontmatter := [("title", JVal.str "Fm")] }

theorem frontmatter_merge_claims_witness :
    objLookup "title" (mergedFrontmatter w7Request) = some (JVal.str "Cfg") ∧
    ProjectGenerator.serializeEntry ("mdc", JVal.boolean true) =
      "mdc" ++ ": " ++ jsonStringify (JVal.boolean true) := by
  constructor
  · have h := (frontmatter_merge_claims w7Request "title").1
    rw [h]
    rfl
  · exact (frontmatter_merge_claims w7Request "mdc").2.2.1 (JVal.boolean true)
      (fun s h => by cases h)

/-- Counterexample for C7 as stated: the docker-manager slides writer emits
a string-typed frontmatter value (`theme: default`) with no quotes at all,
while the project-generator writer quotes it. -/
def w7cRequest : GeneratePPTRequest :=
  { content := "# deck", title := none, theme := none, config := []
    ttl := none, customCSS := none, frontmatter := [] }

theorem dockerFrontmatter_unquoted_counterexample :
    ("theme", JVal.str "default") ∈ mergedFrontmatter w7cRequest ∧
    DockerManager.frontmatterYaml w7cRequest =
      "theme: default\ntitle: Generated Presentation\nclass: text-center\ntransition: slide-left\nmdc: true" ∧
    ((DockerManager.frontmatterYaml w7cRequest).data.contains '"') = false ∧
    ProjectGenerator.frontmatterYaml w7cRequest =
      "theme: \"default\"\ntitle: \"Generated Presentation\"\nclass: \"text-center\"\ntransition: \"slide-left\"\nmdc: true" := by
  exact ⟨by decide, by decide, by decide, by decide⟩

/-! ## Claim C9: only ready instances are ever registered -/

theorem mapLookup_mem {k : String} {v : PresentationInstance} :
    ∀ {l : List (String × PresentationInstance)}, mapLookup k l = some v → (k, v) ∈ l := by
  intro l
  induction l with
  | nil => intro h; simp [mapLookup] at h
  | cons p rest ih =>
    intro h
    unfold mapLookup at h
    split at h
    · have hp : p = (k, v) := by
        have h2 : p.2 = v := by injection h
        have h1 : p.1 = k := by assumption
        exact Prod.ext h1 h2
      exact hp ▸ List.mem_cons_self p rest
    · exact List.mem_cons_of_mem p (ih h)

theorem allReady_mapSet {l : List (String × PresentationInstance)} {id : String}
    {inst : PresentationInstance}
    (hl : ∀ p ∈ l, p.2.status = InstanceStatus.ready)
    (hi : inst.status = InstanceStatus.ready) :
    ∀ p ∈ mapSet id inst l, p.2.status = InstanceStatus.ready := by
  intro p hp
  unfold mapSet at hp
  split at hp
  · obtain ⟨q, hq, hpq⟩ := List.mem_map.mp hp
    by_cases h : q.1 = id
    · simp only [h, if_true] at hpq
      rw [← hpq]
      exact hi
    · simp only [h, if_false] at hpq
      rw [← hpq]
      exact hl q hq
  · rcases List.mem_append.mp hp with h | h
    · exact hl p h
    · have : p = (id, inst) := by simpa using h
      rw [this]
      exact hi

theorem createPresentation_instances_cases (cfg : ServerConfig) (env : CreateEnv)
    (request : GeneratePPTRequest) (now : Nat) (st : ManagerState) :
    (createPresentation cfg env request now st).2.instances = st.instances ∨
    ∃ id inst, inst.status = InstanceStatus.ready ∧
      (createPresentation cfg env request now st).2.instances = mapSet id inst st.instances := by
  by_cases hcap : cfg.maxConcurrentPresentations ≤ st.instances.length
  · left
    simp [createPresentation, hcap]
  · cases hsc : env.scaffoldErr with
    | some e =>
      left
      by_cases hcl : env.scaffoldCleanupOk <;>
        simp [createPresentation, createProjectWithoutDeps, hcap, hsc, hcl]
    | none =>
      cases hap : allocatePort cfg.portStart cfg.portEnd env.probe st.allocatedPorts with
      | error e =>
        left
        simp [createPresentation, createProjectWithoutDeps, hcap, hsc, hap]
      | ok pa =>
        obtain ⟨port, A'⟩ := pa
        cases hsp : env.spawnResult with
        | error e =>
          left
          by_cases hrm : env.rollbackRmOk <;>
            simp [createPresentation, createProjectWithoutDeps, cleanupProject,
                  hcap, hsc, hap, hsp, hrm]
        | ok pid =>
          cases hre : env.readyErr with
          | some e =>
            left
            by_cases hrm : env.rollbackRmOk <;>
              simp [createPresentation, createProjectWithoutDeps, cleanupProject,
                    hcap, hsc, hap, hsp, hre, hrm]
          | none =>
            right
            refine ⟨env.freshId,
              { id := env.freshId, projectPath := projectPathOf cfg env, server := pid
                port := port, createdAt := now, expiresAt := now + resolvedTTL cfg request
                status := .ready, request := request }, rfl, ?_⟩
            simp [createPresentation, createProjectWithoutDeps, projectPathOf,
                  hcap, hsc, hap, hsp, hre]

theorem createPresentation_fail_frame (cfg : ServerConfig) (env : CreateEnv)
    (request : GeneratePPTRequest) (now : Nat) (st : ManagerState)
    (h : (createPresentation cfg env request now st).1.isOk = false) :
    (createPresentation cfg env request now st).2.instances = st.instances ∧
    (createPresentation cfg env request now st).2.allocatedPorts = st.allocatedPorts := by
  by_cases hcap : cfg.maxConcurrentPresentations ≤ st.instances.length
  · simp [createPresentation, hcap]
  · cases hsc : env.scaffoldErr with
    | some e =>
      by_cases hcl : env.scaffoldCleanupOk <;>
        simp [createPresentation, createProjectWithoutDeps, hcap, hsc, hcl]
    | none =>
      cases hap : allocatePort cfg.portStart cfg.portEnd env.probe st.allocatedPorts with
      | error e =>
        simp [createPresentation, createProjectWithoutDeps, hcap, hsc, hap]
      | ok pa =>
        obtain ⟨port, A'⟩ := pa
        obtain ⟨_, _, hnp, hins⟩ := allocatePort_ok_elim hap
        have hrel : (releasePort port A').1 = st.allocatedPorts := by
          subst hins
          simp [releasePort, Finset.mem_insert_self, Finset.erase_insert hnp]
        cases hsp : env.spawnResult with
        | error e =>
          by_cases hrm : env.rollbackRmOk <;>
            simp [createPresentation, createProjectWithoutDeps, cleanupProject,
                  hcap, hsc, hap, hsp, hrm, hrel]
        | ok pid =>
          cases hre : env.readyErr with
          | some e =>
            by_cases hrm : env.rollbackRmOk <;>
              simp [createPresentation, createProjectWithoutDeps, cleanupProject,
                    hcap, hsc, hap, hsp, hre, hrm, hrel]
          | none =>
            simp [createPresentation, createProjectWithoutDeps, hcap, hsc, hap, hsp, hre,
                  Except.isOk, Except.toBool] at h

theorem allReady_delete (rmOk : Bool) (id : String) (st : ManagerState)
    (h : allReady st) : allReady (deletePresentation rmOk id st).2 := by
  unfold deletePresentation
  cases hl : mapLookup id st.instances with
  | none => simpa using h
  | some inst =>
    simp only [hl]
    rcases hc : cleanupProject rmOk inst.projectPath st.dirs with ⟨cres, dirs'⟩
    cases cres with
    | ok u =>
      intro p hp
      exact h p (List.mem_of_mem_filter hp)
    | error ce =>
      intro p hp
      exact h p hp

theorem allReady_sweepFold (rmOk : String → Bool) :
    ∀ (ids : List String) (acc : Nat × ManagerState), allReady acc.2 →
      allReady ((ids.foldl (sweepStep rmOk) acc)).2 := by
  intro ids
  induction ids with
  | nil => intro acc h; simpa using h
  | cons id rest ih =>
    intro acc h
    rw [List.foldl_cons]
    apply ih
    have hdel := allReady_delete (rmOk id) id acc.2 h
    unfold sweepStep
    rcases hd : deletePresentation (rmOk id) id acc.2 with ⟨res, st'⟩
    rw [hd] at hdel
    cases res <;> simpa using hdel

theorem allReady_extend (id : String) (ttl now : Nat) (st : ManagerState)
    (h : allReady st) : allReady (extendPresentation id ttl now st).2 := by
  unfold extendPresentation
  split
  · exact h
  · cases hl : mapLookup id st.instances with
    | none => simpa [hl] using h
    | some inst =>
      simp only [hl]
      intro p hp
      obtain ⟨q, hq, hpq⟩ := List.mem_map.mp hp
      by_cases hqid : q.1 = id
      · simp only [hqid, if_true] at hpq
        rw [← hpq]
        exact h q hq
      · simp only [hqid, if_false] at hpq
        rw [← hpq]
        exact h q hq

/-- C9.  Instances are registered only with status `'ready'` (registration
happens after the spawn and readiness wait both succeeded), the invariant
is preserved by every public operation, so `getPresentation` and
`getAllPresentations` can never observe a `'generating'`/`'provisioning'`
instance; and a create attempt that fails before readiness registers
nothing at all. -/
theorem ready_status_invariant (cfg : ServerConfig) :
    (∀ st st', ManagerStep cfg st st' → allReady st → allReady st') ∧
    (∀ (st : ManagerState) (id : String) (inst : PresentationInstance), allReady st →
       getPresentation id st = some inst → inst.status = InstanceStatus.ready) ∧
    (∀ (st : ManagerState) (inst : PresentationInstance), allReady st →
       inst ∈ getAllPresentations st → inst.status = InstanceStatus.ready) ∧
    (∀ (env : CreateEnv) (request : GeneratePPTRequest) (now : Nat) (st : ManagerState),
       (createPresentation cfg env request now st).1.isOk = false →
       (createPresentation cfg env request now st).2.instances = st.instances) := by
  refine ⟨?_, ?_, ?_, ?_⟩
  · intro st st' hstep h
    cases hstep with
    | create env request now st =>
      rcases createPresentation_instances_cases cfg env request now st with hc | ⟨id, inst, hready, hc⟩
      · intro p hp
        rw [hc] at hp
        exact h p hp
      · intro p hp
        rw [hc] at hp
        exact allReady_mapSet h hready p hp
    | delete rmOk id st => exact allReady_delete rmOk id st h
    | extend id ttl now st => exact allReady_extend id ttl now st h
    | sweep rmOk now st => exact allReady_sweepFold rmOk _ (0, st) h
  · intro st id inst h hl
    exact h (id, inst) (mapLookup_mem hl)
  · intro st inst h hm
    obtain ⟨p, hp, hpi⟩ := List.mem_map.mp hm
    rw [← hpi]
    exact h p hp
  · intro env request now st hfail
    exact (createPresentation_fail_frame cfg env request now st hfail).1

/-- Witness for C9: the ready-status observation on a concrete one-instance
state, and invariant preservation across a concrete delete step. -/
theorem ready_status_invariant_witness :
    (wInst 0).status = InstanceStatus.ready ∧
    allReady (deletePresentation true "slidev-w0000000000000" w10State).2 :=
  ⟨(ready_status_invariant createDefaultConfig).2.1 w10State "slidev-w0000000000000"
      (wInst 0) (by intro p hp; simp [w10State] at hp; simp [hp, wInst])
      (by simp [getPresentation, w10State, mapLookup]),
   (ready_status_invariant createDefaultConfig).1 w10State _
      (ManagerStep.delete true "slidev-w0000000000000" w10State)
      (by intro p hp; simp [w10State] at hp; simp [hp, wInst])⟩

/-! ## Claim C4: the expired-instance sweep -/

theorem containsIffMem (l : List String) (a : String) : l.contains a = true ↔ a ∈ l := by
  simp [List.contains_iff_exists_mem_beq]

theorem mapLookup_eq_none (k : String) :
    ∀ l : List (String × PresentationInstance),
      mapLookup k l = none ↔ ∀ p ∈ l, p.1 ≠ k := by
  intro l
  induction l with
  | nil => simp [mapLookup]
  | cons p rest ih =>
    by_cases hp : p.1 = k
    · simp [mapLookup, hp]
    · simp [mapLookup, hp, ih]

theorem mapLookup_of_mem_nodup {l : List (String × PresentationInstance)}
    {p : String × PresentationInstance} (hnd : (l.map Prod.fst).Nodup) (hp : p ∈ l) :
    mapLookup p.1 l = some p.2 := by
  induction l with
  | nil => cases hp
  | cons q rest ih =>
    rcases List.mem_cons.mp hp with h | h
    · subst h
      simp [mapLookup]
    · have hne : p.1 ≠ q.1 := by
        intro hc
        have : q.1 ∉ rest.map Prod.fst := (List.nodup_cons.mp hnd).1
        exact this (hc ▸ List.mem_map_of_mem Prod.fst h)
      have hne' : ¬(q.1 = p.1) := fun hc => hne hc.symm
      simp only [mapLookup, if_neg hne']
      exact ih (List.nodup_cons.mp hnd).2 h

theorem deletePresentation_notFound (rmOk : Bool) (id : String) (st : ManagerState)
    (h : mapLookup id st.instances = none) :
    deletePresentation rmOk id st = (.ok false, st) := by
  simp [deletePresentation, h]

theorem deletePresentation_found_ok (id : String) (st : ManagerState)
    (inst : PresentationInstance) (h : mapLookup id st.instances = some inst) :
    deletePresentation true id st =
      (.ok true,
       { instances := mapDelete id st.instances
         allocatedPorts := (releasePort inst.port st.allocatedPorts).1
         dirs := st.dirs.erase inst.projectPath
         procs := st.procs.erase inst.server }) := by
  simp [deletePresentation, cleanupProject, h]

theorem deletePresentation_found_fail (id : String) (st : ManagerState)
    (inst : PresentationInstance) (h : mapLookup id st.instances = some inst) :
    deletePresentation false id st =
      (.error "Failed to cleanup project",
       { instances := st.instances
         allocatedPorts := (releasePort inst.port st.allocatedPorts).1
         dirs := st.dirs
         procs := st.procs.erase inst.server }) := by
  simp [deletePresentation, cleanupProject, h]

theorem sweepFold_spec (rmOk : String → Bool) :
    ∀ (ids : List String) (st₀ : ManagerState) (c : Nat),
      ids.Nodup →
      (st₀.instances.map Prod.fst).Nodup →
      (st₀.instances.map (fun p => p.2.port)).Nodup →
      (st₀.instances.map (fun p => p.2.projectPath)).Nodup →
      (ids.foldl (sweepStep rmOk) (c, st₀)).2.instances =
          st₀.instances.filter (fun p => !(ids.contains p.1 && rmOk p.1)) ∧
      (∀ p ∈ st₀.instances, p.1 ∉ ids →
         (p.2.port ∈ st₀.allocatedPorts →
            p.2.port ∈ (ids.foldl (sweepStep rmOk) (c, st₀)).2.allocatedPorts) ∧
         (p.2.projectPath ∈ st₀.dirs →
            p.2.projectPath ∈ (ids.foldl (sweepStep rmOk) (c, st₀)).2.dirs)) := by
  intro ids
  induction ids with
  | nil =>
    intro st₀ c _ _ _ _
    constructor
    · simp
    · intro p hp _
      exact ⟨fun h => h, fun h => h⟩
  | cons id₀ rest ih =>
    intro st₀ c hids hkeys hports hpaths
    have hidsrest : rest.Nodup := (List.nodup_cons.mp hids).2
    rw [List.foldl_cons]
    cases hl : mapLookup id₀ st₀.instances with
    | none =>
      have hstep : sweepStep rmOk (c, st₀) id₀ = (c + 1, st₀) := by
        simp [sweepStep, deletePresentation_notFound _ _ _ hl]
      rw [hstep]
      obtain ⟨ih1, ih2⟩ := ih st₀ (c + 1) hidsrest hkeys hports hpaths
      have hkey : ∀ p ∈ st₀.instances, p.1 ≠ id₀ := (mapLookup_eq_none id₀ _).mp hl
      constructor
      · rw [ih1]
        apply List.filter_congr
        intro p hp
        simp [List.contains_cons, hkey p hp]
      · intro p hp hnotin
        exact ih2 p hp (fun hc => hnotin (List.mem_cons_of_mem _ hc))
    | some inst₀ =>
      have hmem₀ : (id₀, inst₀) ∈ st₀.instances := mapLookup_mem hl
      have hport_ne : ∀ p ∈ st₀.instances, p.1 ≠ id₀ → p.2.port ≠ inst₀.port := by
        intro p hp hne hc
        exact hne (congrArg Prod.fst (List.inj_on_of_nodup_map hports hp hmem₀ hc))
      have hpath_ne : ∀ p ∈ st₀.instances, p.1 ≠ id₀ → p.2.projectPath ≠ inst₀.projectPath := by
        intro p hp hne hc
        exact hne (congrArg Prod.fst (List.inj_on_of_nodup_map hpaths hp hmem₀ hc))
      have hsub : (mapDelete id₀ st₀.instances).Sublist st₀.instances :=
        List.filter_sublist _
      have hkeys₁ : ((mapDelete id₀ st₀.instances).map Prod.fst).Nodup :=
        List.Nodup.sublist (hsub.map Prod.fst) hkeys
      have hports₁ : ((mapDelete id₀ st₀.instances).map (fun p => p.2.port)).Nodup :=
        List.Nodup.sublist (hsub.map _) hports
      have hpaths₁ : ((mapDelete id₀ st₀.instances).map (fun p => p.2.projectPath)).Nodup :=
        List.Nodup.sublist (hsub.map _) hpaths
      by_cases hrm : rmOk id₀ = true
      · -- the deletion of id₀ succeeds and removes its entry, port and directory
        have hstep : sweepStep rmOk (c, st₀) id₀ =
            (c + 1,
             { instances := mapDelete id₀ st₀.instances
               allocatedPorts := (releasePort inst₀.port st₀.allocatedPorts).1
               dirs := st₀.dirs.erase inst₀.projectPath
               procs := st₀.procs.erase inst₀.server }) := by
          simp [sweepStep, hrm, deletePresentation_found_ok _ _ _ hl]
        rw [hstep]
        obtain ⟨ih1, ih2⟩ := ih
          { instances := mapDelete id₀ st₀.instances
            allocatedPorts := (releasePort inst₀.port st₀.allocatedPorts).1
            dirs := st₀.dirs.erase inst₀.projectPath
            procs := st₀.procs.erase inst₀.server } (c + 1) hidsrest hkeys₁ hports₁ hpaths₁
        constructor
        · rw [ih1]
          show (mapDelete id₀ st₀.instances).filter _ = _
          rw [mapDelete, List.filter_filter]
          apply List.filter_congr
          intro p hp
          by_cases hpid : p.1 = id₀
          · simp [hpid, hrm, List.contains_cons]
          · simp [hpid, List.contains_cons]
        · intro p hp hnotin
          have hne : p.1 ≠ id₀ := fun hc => hnotin (hc ▸ List.mem_cons_self _ _)
          have hrest : p.1 ∉ rest := fun hc => hnotin (List.mem_cons_of_mem _ hc)
          have hp₁ : p ∈ mapDelete id₀ st₀.instances :=
            List.mem_filter.mpr ⟨hp, by simp [hne]⟩
          obtain ⟨ihp, ihd⟩ := ih2 p hp₁ hrest
          constructor
          · intro hmem
            exact ihp (releasePort_mem_of_ne (hport_ne p hp hne) hmem)
          · intro hmem
            exact ihd (Finset.mem_erase.mpr ⟨hpath_ne p hp hne, hmem⟩)
      · -- the deletion of id₀ throws: entry and directory stay, port is released
        have hrm' : rmOk id₀ = false := by
          cases h : rmOk id₀
          · rfl
          · exact absurd h hrm
        have hstep : sweepStep rmOk (c, st₀) id₀ =
            (c,
             { instances := st₀.instances
               allocatedPorts := (releasePort inst₀.port st₀.allocatedPorts).1
               dirs := st₀.dirs
               procs := st₀.procs.erase inst₀.server }) := by
          simp [sweepStep, hrm', deletePresentation_found_fail _ _ _ hl]
        rw [hstep]
        obtain ⟨ih1, ih2⟩ := ih
          { instances := st₀.instances
            allocatedPorts := (releasePort inst₀.port st₀.allocatedPorts).1
            dirs := st₀.dirs
            procs := st₀.procs.erase inst₀.server } c hidsrest hkeys hports hpaths
        constructor
        · rw [ih1]
          show st₀.instances.filter _ = _
          apply List.filter_congr
          intro p hp
          by_cases hpid : p.1 = id₀
          · simp [hpid, hrm', List.contains_cons]
          · simp [hpid, List.contains_cons]
        · intro p hp hnotin
          have hne : p.1 ≠ id₀ := fun hc => hnotin (hc ▸ List.mem_cons_self _ _)
          have hrest : p.1 ∉ rest := fun hc => hnotin (List.mem_cons_of_mem _ hc)
          obtain ⟨ihp, ihd⟩ := ih2 p hp hrest
          constructor
          · intro hmem
            exact ihp (releasePort_mem_of_ne (hport_ne p hp hne) hmem)
          · intro hmem
            exact ihd hmem

/-- C4.  For a well-formed state, one sweep leaves exactly the instances
that were not yet expired at sweep time — plus any expired instance whose
deletion threw, showing one failure does not stop the rest of the sweep —
and it leaves each surviving non-expired instance's map entry, port and
directory untouched; and when every deletion succeeded, an immediately
repeated sweep (under any deletion oracle) removes nothing. -/
theorem cleanupExpired_claims (rmOk : String → Bool) (now : Nat) (st : ManagerState)
    (hwf : stateWF st) :
    (cleanupExpired rmOk now st).2.instances =
        st.instances.filter (fun p => !(decide (p.2.expiresAt ≤ now) && rmOk p.1)) ∧
    (∀ p ∈ st.instances, ¬(p.2.expiresAt ≤ now) →
        p ∈ (cleanupExpired rmOk now st).2.instances ∧
        p.2.port ∈ (cleanupExpired rmOk now st).2.allocatedPorts ∧
        p.2.projectPath ∈ (cleanupExpired rmOk now st).2.dirs) ∧
    ((∀ i, rmOk i = true) →
        ∀ rmOk₂ : String → Bool,
          cleanupExpired rmOk₂ now (cleanupExpired rmOk now st).2 =
            (0, (cleanupExpired rmOk now st).2)) := by
  obtain ⟨hkeys, hports, hpaths, hpmem, hdmem⟩ := hwf
  have hun : cleanupExpired rmOk now st =
      ((st.instances.filter (fun p => p.2.expiresAt ≤ now)).map Prod.fst).foldl
        (sweepStep rmOk) (0, st) := rfl
  set expiredIds := (st.instances.filter (fun p => p.2.expiresAt ≤ now)).map Prod.fst
    with hexp
  have hexpnd : expiredIds.Nodup :=
    List.Nodup.sublist ((List.filter_sublist _).map Prod.fst) hkeys
  have hin : ∀ p ∈ st.instances, (p.1 ∈ expiredIds ↔ p.2.expiresAt ≤ now) := by
    intro p hp
    constructor
    · intro hmemids
      rw [hexp] at hmemids
      obtain ⟨q, hq, hq1⟩ := List.mem_map.mp hmemids
      obtain ⟨hqmem, hqexp⟩ := List.mem_filter.mp hq
      have hqp : q = p := List.inj_on_of_nodup_map hkeys hqmem hp hq1
      rw [← hqp]
      exact of_decide_eq_true hqexp
    · intro hpe
      rw [hexp]
      exact List.mem_map_of_mem _ (List.mem_filter.mpr ⟨hp, decide_eq_true hpe⟩)
  obtain ⟨hf1, hf2⟩ := sweepFold_spec rmOk expiredIds st 0 hexpnd hkeys hports hpaths
  refine ⟨?_, ?_, ?_⟩
  · rw [hun, hf1]
    apply List.filter_congr
    intro p hp
    by_cases hpe : p.2.expiresAt ≤ now
    · have hm : p.1 ∈ expiredIds := (hin p hp).mpr hpe
      simp [hpe, hm]
    · have hnm : p.1 ∉ expiredIds := fun hc => hpe ((hin p hp).mp hc)
      simp [hpe, hnm]
  · intro p hp hpe
    have hnotin : p.1 ∉ expiredIds := fun hc => hpe ((hin p hp).mp hc)
    obtain ⟨ihp, ihd⟩ := hf2 p hp hnotin
    refine ⟨?_, ?_, ?_⟩
    · rw [hun, hf1]
      exact List.mem_filter.mpr ⟨hp, by simp [hnotin]⟩
    · rw [hun]
      exact ihp (hpmem p hp)
    · rw [hun]
      exact ihd (hdmem p hp)
  · intro hall rmOk₂
    have hempty : ((cleanupExpired rmOk now st).2.instances.filter
        (fun p => p.2.expiresAt ≤ now)) = [] := by
      rw [hun, hf1, List.filter_filter]
      apply List.filter_eq_nil_iff.mpr
      intro a ha
      by_cases hae : a.2.expiresAt ≤ now
      · have ham : a.1 ∈ expiredIds := (hin a ha).mpr hae
        simp [hall a.1, hae, ham]
      · simp [hae]
    have hrun : cleanupExpired rmOk₂ now (cleanupExpired rmOk now st).2 =
        (((cleanupExpired rmOk now st).2.instances.filter
            (fun p => p.2.expiresAt ≤ now)).map Prod.fst).foldl
          (sweepStep rmOk₂) (0, (cleanupExpired rmOk now st).2) := rfl
    rw [hrun, hempty]
    rfl

/-- Witness for C4: a two-instance state (one expired at `now = 100`, one
live), swept with an all-successful deletion oracle. -/
def w4Request : GeneratePPTRequest :=
  { content := "# w4", title := none, theme := none, config := []
    ttl := none, customCSS := none, frontmatter := [] }

def w4Expired : PresentationInstance :=
  { id := "slidev-e000000000000", projectPath := "/tmp/slidev-api/slidev-e000000000000"
    server := 41, port := 3002, createdAt := 0, expiresAt := 50
    status := .ready, request := w4Request }

def w4Live : PresentationInstance :=
  { id := "slidev-l000000000000", projectPath := "/tmp/slidev-api/slidev-l000000000000"
    server := 42, port := 3003, createdAt := 0, expiresAt := 999999
    status := .ready, request := w4Request }

def w4State : ManagerState :=
  { instances := [("slidev-e000000000000", w4Expired), ("slidev-l000000000000", w4Live)]
    allocatedPorts := {3002, 3003}
    dirs := {"/tmp/slidev-api/slidev-e000000000000", "/tmp/slidev-api/slidev-l000000000000"}
    procs := {41, 42} }

theorem cleanupExpired_claims_witness :
    ("slidev-l000000000000", w4Live) ∈
        (cleanupExpired (fun _ => true) 100 w4State).2.instances ∧
    w4Live.port ∈ (cleanupExpired (fun _ => true) 100 w4State).2.allocatedPorts ∧
    w4Live.projectPath ∈ (cleanupExpired (fun _ => true) 100 w4State).2.dirs :=
  (cleanupExpired_claims (fun _ => true) 100 w4State
      (by refine ⟨by decide, by decide, by decide, ?_, ?_⟩ <;> decide)).2.1
    ("slidev-l000000000000", w4Live) (by decide) (by decide)

/-! ## Claim C1: rollback of failed create attempts -/

/-- Counterexample to C1 as stated: scaffold succeeds, then port allocation
throws (probe failure).  The call fails, no port is held and nothing is
registered — but the working directory created for the generated id is
still on disk: `createPresentation` has no directory rollback between the
scaffold stage and the inner spawn/readiness try block. -/
def c1Env : CreateEnv :=
  { freshId := "slidev-c1c1c1c1c1c1", scaffoldErr := none, scaffoldCleanupOk := true
    probe := .error "getPort failed", spawnResult := .ok 700, readyErr := none
    rollbackRmOk := true }

def c1Request : GeneratePPTRequest :=
  { content := "# c1 deck", title := none, theme := none, config := []
    ttl := none, customCSS := none, frontmatter := [] }

theorem createPresentation_dirLeak_counterexample :
    ((createPresentation createDefaultConfig c1Env c1Request 0 initialState).1.isOk
        = false) ∧
    (createPresentation createDefaultConfig c1Env c1Request 0 initialState).2.instances
        = [] ∧
    (createPresentation createDefaultConfig c1Env c1Request 0 initialState).2.allocatedPorts
        = ∅ ∧
    "/tmp/slidev-api/slidev-c1c1c1c1c1c1" ∈
      (createPresentation createDefaultConfig c1Env c1Request 0 initialState).2.dirs :=
  ⟨by decide, by decide, by decide, by decide⟩

/-- C1 (amended).  Every failing `createPresentation` leaves the instance
map and the allocated-port set exactly as before the call; a capacity
failure changes nothing at all; a scaffold-stage failure (whose rollback
removal succeeds) propagates the original error with the directory gone; a
spawn- or readiness-stage failure (with the rollback removal succeeding)
propagates the original error with the directory gone; but a failure at the
port-allocation stage leaves the freshly scaffolded working directory on
disk. -/
theorem createPresentation_rollback (cfg : ServerConfig) (env : CreateEnv)
    (request : GeneratePPTRequest) (now : Nat) (st : ManagerState)
    (hfail : (createPresentation cfg env request now st).1.isOk = false) :
    (createPresentation cfg env request now st).2.instances = st.instances ∧
    (createPresentation cfg env request now st).2.allocatedPorts = st.allocatedPorts ∧
    (cfg.maxConcurrentPresentations ≤ st.instances.length →
       (createPresentation cfg env request now st).2 = st) ∧
    (∀ e, st.instances.length < cfg.maxConcurrentPresentations →
       env.scaffoldErr = some e → env.scaffoldCleanupOk = true →
       (createPresentation cfg env request now st).1 = .error e ∧
       projectPathOf cfg env ∉ (createPresentation cfg env request now st).2.dirs) ∧
    (st.instances.length < cfg.maxConcurrentPresentations →
       env.scaffoldErr = none →
       (allocatePort cfg.portStart cfg.portEnd env.probe st.allocatedPorts).isOk = false →
       projectPathOf cfg env ∈ (createPresentation cfg env request now st).2.dirs) ∧
    (∀ (e : String) (port : Nat) (A' : Finset Nat),
       st.instances.length < cfg.maxConcurrentPresentations →
       env.scaffoldErr = none →
       allocatePort cfg.portStart cfg.portEnd env.probe st.allocatedPorts = .ok (port, A') →
       env.rollbackRmOk = true →
       (env.spawnResult = .error e ∨
         (∃ pid, env.spawnResult = .ok pid ∧ env.readyErr = some e)) →
       (createPresentation cfg env request now st).1 = .error e ∧
       projectPathOf cfg env ∉ (createPresentation cfg env request now st).2.dirs) := by
  obtain ⟨hinst, hports⟩ := createPresentation_fail_frame cfg env request now st hfail
  refine ⟨hinst, hports, ?_, ?_, ?_, ?_⟩
  · intro hcap
    simp [createPresentation, hcap]
  · intro e hlen hsc hcl
    have hcap : ¬cfg.maxConcurrentPresentations ≤ st.instances.length := by omega
    constructor
    · simp [createPresentation, createProjectWithoutDeps, hcap, hsc, hcl]
    · simp [createPresentation, createProjectWithoutDeps, hcap, hsc, hcl,
            Finset.not_mem_erase]
  · intro hlen hsc hap
    have hcap : ¬cfg.maxConcurrentPresentations ≤ st.instances.length := by omega
    cases hres : allocatePort cfg.portStart cfg.portEnd env.probe st.allocatedPorts with
    | ok pa =>
      rw [hres] at hap
      simp [Except.isOk, Except.toBool] at hap
    | error msg =>
      simp [createPresentation, createProjectWithoutDeps, hcap, hsc, hres,
            Finset.mem_insert_self]
  · intro e port A' hlen hsc hap hrm hstage
    have hcap : ¬cfg.maxConcurrentPresentations ≤ st.instances.length := by omega
    rcases hstage with hsp | ⟨pid, hsp, hre⟩
    · constructor
      · simp [createPresentation, createProjectWithoutDeps, cleanupProject,
              hcap, hsc, hap, hsp, hrm]
      · simp [createPresentation, createProjectWithoutDeps, cleanupProject,
              hcap, hsc, hap, hsp, hrm, Finset.not_mem_erase]
    · constructor
      · simp [createPresentation, createProjectWithoutDeps, cleanupProject,
              hcap, hsc, hap, hsp, hre, hrm]
      · simp [createPresentation, createProjectWithoutDeps, cleanupProject,
              hcap, hsc, hap, hsp, hre, hrm, Finset.not_mem_erase]

/-- Witness for C1 (amended): a readiness-stage failure on the default
config from the empty state rolls the directory back and propagates the
startup error. -/
def w1Env : CreateEnv :=
  { freshId := "slidev-r1r1r1r1r1r1", scaffoldErr := none, scaffoldCleanupOk := true
    probe := .ok 3002, spawnResult := .ok 700
    readyErr := some "Slidev server failed to start on port 3002"
    rollbackRmOk := true }

theorem createPresentation_rollback_witness :
    (createPresentation createDefaultConfig w1Env c1Request 0 initialState).1 =
      .error "Slidev server failed to start on port 3002" ∧
    projectPathOf createDefaultConfig w1Env ∉
      (createPresentation createDefaultConfig w1Env c1Request 0 initialState).2.dirs :=
  (createPresentation_rollback createDefaultConfig w1Env c1Request 0 initialState
      (by decide)).2.2.2.2.2
    "Slidev server failed to start on port 3002" 3002 (insert 3002 ∅)
    (by decide) rfl rfl rfl (Or.inr ⟨700, rfl, rfl⟩)
